import Mathlib

/-!
Verification of `build/create-mac-icon.py`.

The script composes a 1024x1024 RGBA badge (two concentric filled
circles and one centered glyph) and exports it at seven fixed sizes
plus a full-size copy.  We embed the script shallowly: PIL images
become a structure carrying mode, dimensions and a pixel function;
fonts become an abstract bounding-box / coverage structure supplied by
the environment; the filesystem becomes a map from path strings to
saved files.  All integer constants produced by Python's
`int(float)` truncations in the script (`int(1024*0.45) = 460`,
`int(460*0.8) = 368`, `int(1024*0.4) = 409`) coincide with exact
integer floor division, which is how they are embedded here.
-/

namespace MacIcon

/-- Pixel color: an RGBA 4-tuple as used by PIL for mode RGBA. -/
structure Color where
  r : Nat
  g : Nat
  b : Nat
  a : Nat
deriving DecidableEq, Repr

/-- An in-memory raster, as produced by `Image.new` and mutated by
`ImageDraw`.  The mode string is kept verbatim (the script only ever
creates mode `"RGBA"`). -/
@[ext]
structure Img where
  mode : String
  width : Nat
  height : Nat
  pix : Nat → Nat → Color

/-- Embeds `Image.new(mode, (w, h), color)`: a fresh raster with every
pixel set to the given color. -/
def Image.new (mode : String) (w h : Nat) (c : Color) : Img :=
  ⟨mode, w, h, fun _ _ => c⟩

/-- A loaded font, abstractly: PIL's `textbbox((0,0), s, font)`
measurement for a string, and the glyph coverage mask relative to the
draw anchor.  Concrete glyph shapes are environment data, not part of
the script. -/
structure Font where
  bbox : String → Int × Int × Int × Int
  mask : String → Int → Int → Bool

/-- The font environment the script runs in: `ImageFont.truetype` may
fail (modelled by `Option`), `ImageFont.load_default` always
succeeds. -/
structure FontEnv where
  truetype : String → Nat → Option Font
  load_default : Font

/-- Embeds `draw.textbbox((x, y), s, font=f)`: PIL text measurement is
translation-equivariant, so the box at `(x, y)` is the box at the
origin shifted by `(x, y)`. -/
def textbbox (x y : Int) (s : String) (f : Font) : Int × Int × Int × Int :=
  let b := f.bbox s
  (x + b.1, y + b.2.1, x + b.2.2.1, y + b.2.2.2)

/-- Membership test for the filled ellipse with bounding box
`[x0, y0, x1, y1]` (the idealized pixel coverage of
`draw.ellipse(..., fill=...)`). -/
def insideEllipse (x0 y0 x1 y1 x y : Int) : Bool :=
  decide ((2*x - (x0+x1))^2 * (y1-y0)^2 + (2*y - (y0+y1))^2 * (x1-x0)^2
            ≤ (x1-x0)^2 * (y1-y0)^2)

/-- Embeds `draw.ellipse([x0, y0, x1, y1], fill=c)`: pixels inside the
ellipse take the fill color, others keep their value. -/
def drawEllipse (img : Img) (x0 y0 x1 y1 : Int) (c : Color) : Img :=
  { img with pix := fun x y =>
      if insideEllipse x0 y0 x1 y1 (x : Int) (y : Int) then c else img.pix x y }

/-- Embeds `draw.text((tx, ty), s, fill=c, font=f)`: pixels covered by
the glyph mask (placed at the anchor) take the fill color. -/
def drawText (img : Img) (tx ty : Int) (s : String) (c : Color) (f : Font) : Img :=
  { img with pix := fun x y =>
      if f.mask s ((x : Int) - tx) ((y : Int) - ty) then c else img.pix x y }

/-- One recorded drawing call of the script. -/
inductive DrawOp where
  | ellipse (x0 y0 x1 y1 : Int) (fill : Color)
  | text (x y : Int) (s : String) (fill : Color) (font : Font)

/-- Applies one drawing call to a raster. -/
def applyOp (img : Img) : DrawOp → Img
  | .ellipse x0 y0 x1 y1 c => drawEllipse img x0 y0 x1 y1 c
  | .text x y s c f => drawText img x y s c f

/-- Applies a sequence of drawing calls in order. -/
def rasterize (img : Img) (ops : List DrawOp) : Img :=
  ops.foldl applyOp img

/-- Line 12: `size = 1024`, the base canvas size. -/
def canvasSize : Nat := 1024

/-- Line 18: `center = size // 2`. -/
def center : Int := (canvasSize : Int) / 2

/-- Line 19: `radius = int(size * 0.45)`; the float truncation yields
`460 = (1024 * 45) / 100` in integer floor division. -/
def radius : Int := ((canvasSize : Int) * 45) / 100

/-- Line 26: `inner_radius = int(radius * 0.8)`; the float truncation
yields `368 = (460 * 8) / 10` in integer floor division. -/
def inner_radius : Int := (radius * 8) / 10

/-- Line 34: `int(size * 0.4)`, the requested font size; the float
truncation yields `409 = (1024 * 4) / 10` in integer floor division. -/
def fontSize : Nat := canvasSize * 4 / 10

/-- Lines 32-37: try `ImageFont.truetype("arial.ttf", int(size*0.4))`,
falling back to `ImageFont.load_default()` on any failure. -/
def chooseFont (env : FontEnv) : Font :=
  match env.truetype "arial.ttf" fontSize with
  | some f => f
  | none => env.load_default

/-- Line 41: `bbox = draw.textbbox((0, 0), text, font=font)` with
`text = "C"`. -/
def glyph_bbox (f : Font) : Int × Int × Int × Int :=
  textbbox 0 0 "C" f

/-- Line 42: `text_width = bbox[2] - bbox[0]`. -/
def text_width (f : Font) : Int :=
  (glyph_bbox f).2.2.1 - (glyph_bbox f).1

/-- Line 43: `text_height = bbox[3] - bbox[1]`. -/
def text_height (f : Font) : Int :=
  (glyph_bbox f).2.2.2 - (glyph_bbox f).2.1

/-- Line 45: `text_x = center - text_width // 2` (Python floor
division, `Int.fdiv`). -/
def text_x (f : Font) : Int :=
  center - Int.fdiv (text_width f) 2

/-- Line 46: `text_y = center - text_height // 2`. -/
def text_y (f : Font) : Int :=
  center - Int.fdiv (text_height f) 2

/-- The bounding box the drawn glyph occupies after
`draw.text((text_x, text_y), ...)`: the font's measured box translated
to the anchor. -/
def drawn_bbox (f : Font) : Int × Int × Int × Int :=
  textbbox (text_x f) (text_y f) "C" f

/-- The sequence of drawing calls `create_icon` issues, lines 22-48:
outer circle, inner circle, then the glyph at the computed anchor. -/
def create_icon_ops (env : FontEnv) : List DrawOp :=
  let font := chooseFont env
  [ .ellipse (center - radius) (center - radius)
             (center + radius) (center + radius) ⟨41, 128, 185, 255⟩
  , .ellipse (center - inner_radius) (center - inner_radius)
             (center + inner_radius) (center + inner_radius) ⟨52, 152, 219, 255⟩
  , .text (text_x font) (text_y font) "C" ⟨255, 255, 255, 255⟩ font ]

/-- Lines 10-50: `create_icon()` builds the 1024x1024 transparent RGBA
canvas and applies the three drawing calls. -/
def create_icon (env : FontEnv) : Img :=
  rasterize (Image.new "RGBA" canvasSize canvasSize ⟨0, 0, 0, 0⟩)
            (create_icon_ops env)

/-- Line 58: `base_img.resize((w, h), Image.Resampling.LANCZOS)`.
PIL's resize returns a fresh image of the requested dimensions in the
same mode whose pixels are a pure function of the source raster; the
fixed resampling filter is embedded as a concrete pure sampling
function (no verified claim depends on the filter's pixel values, only
on purity, dimensions and mode). -/
def Img.resize (img : Img) (w h : Nat) : Img :=
  ⟨img.mode, w, h, fun x y => img.pix (x * img.width / w) (y * img.height / h)⟩

/-- A saved PNG file; `Image.save` encodes the raster, and the PNG
encoding is injective on rasters, so the file is identified with the
raster it encodes. -/
structure PNGFile where
  image : Img

/-- The filesystem: a map from absolute path strings to files. -/
def Fs := String → Option PNGFile

/-- The empty filesystem (no output file exists yet). -/
def Fs.empty : Fs := fun _ => none

/-- Embeds `img.save(path)`: (over)writes the file at `path`. -/
def writeFile (fs : Fs) (path : String) (f : PNGFile) : Fs :=
  fun p => if p = path then some f else fs p

/-- Embeds `os.path.join(dir, name)`. -/
def joinPath (dir name : String) : String :=
  dir ++ "/" ++ name

/-- Line 54: the fixed ordered list of target sizes. -/
def sizes : List Nat := [16, 32, 64, 128, 256, 512, 1024]

/-- Line 59: `f"icon_SxS.png"`, the per-size output filename. -/
def iconName (size : Nat) : String :=
  "icon_" ++ toString size ++ "x" ++ toString size ++ ".png"

/-- Lines 52-65: `save_icon_sizes(base_img)` resizes the base raster
to each size in order, saving each under its derived name, then saves
the base raster itself as `icon.png`.  `build_dir` is the directory
containing the script (`os.path.dirname(os.path.abspath(__file__))`,
line 55), a fixed string for a given installation. -/
def save_icon_sizes (build_dir : String) (base_img : Img) (fs : Fs) : Fs :=
  let fs := sizes.foldl (fun fs size =>
    writeFile fs (joinPath build_dir (iconName size)) ⟨base_img.resize size size⟩) fs
  writeFile fs (joinPath build_dir "icon.png") ⟨base_img⟩

/-- Lines 67-70: the `__main__` block, `save_icon_sizes(create_icon())`. -/
def script_main (env : FontEnv) (build_dir : String) (fs : Fs) : Fs :=
  save_icon_sizes build_dir (create_icon env) fs

/-- The eight filenames the script writes. -/
def outputNames : List String :=
  [iconName 16, iconName 32, iconName 64, iconName 128,
   iconName 256, iconName 512, iconName 1024, "icon.png"]

end MacIcon

namespace MacIcon

/-! Helper lemmas shared by the claims. -/

/-- Joining distinct filenames onto the same directory yields distinct
paths. -/
theorem joinPath_inj {d a b : String} (h : joinPath d a = joinPath d b) : a = b := by
  simp only [joinPath] at h
  have h2 := congrArg String.data h
  simp only [String.data_append] at h2
  exact String.ext (List.append_cancel_left h2)

theorem joinPath_inj_iff {d a b : String} : joinPath d a = joinPath d b ↔ a = b :=
  ⟨joinPath_inj, fun h => h ▸ rfl⟩

/-- Drawing calls never change an image's mode. -/
theorem applyOp_mode (img : Img) (op : DrawOp) : (applyOp img op).mode = img.mode := by
  cases op <;> rfl

/-- Drawing calls never change an image's width. -/
theorem applyOp_width (img : Img) (op : DrawOp) : (applyOp img op).width = img.width := by
  cases op <;> rfl

/-- Drawing calls never change an image's height. -/
theorem applyOp_height (img : Img) (op : DrawOp) : (applyOp img op).height = img.height := by
  cases op <;> rfl

theorem rasterize_mode : ∀ (ops : List DrawOp) (img : Img),
    (rasterize img ops).mode = img.mode
  | [], _ => rfl
  | op :: ops, img => by
      rw [show rasterize img (op :: ops) = rasterize (applyOp img op) ops from rfl,
          rasterize_mode ops, applyOp_mode]

theorem rasterize_width : ∀ (ops : List DrawOp) (img : Img),
    (rasterize img ops).width = img.width
  | [], _ => rfl
  | op :: ops, img => by
      rw [show rasterize img (op :: ops) = rasterize (applyOp img op) ops from rfl,
          rasterize_width ops, applyOp_width]

theorem rasterize_height : ∀ (ops : List DrawOp) (img : Img),
    (rasterize img ops).height = img.height
  | [], _ => rfl
  | op :: ops, img => by
      rw [show rasterize img (op :: ops) = rasterize (applyOp img op) ops from rfl,
          rasterize_height ops, applyOp_height]

/-- The composed badge is a 1024x1024 raster in mode RGBA. -/
theorem create_icon_spec (env : FontEnv) :
    (create_icon env).width = 1024 ∧ (create_icon env).height = 1024 ∧
      (create_icon env).mode = "RGBA" :=
  ⟨rasterize_width _ _, rasterize_height _ _, rasterize_mode _ _⟩

/-- Characterizes which paths exist after a run started on an empty
filesystem: exactly the eight output paths in the script directory. -/
theorem script_files (env : FontEnv) (d p : String) :
    (script_main env d Fs.empty p).isSome ↔ p ∈ outputNames.map (joinPath d) := by
  simp only [script_main, save_icon_sizes, sizes, List.foldl, writeFile,
    outputNames, List.map, Fs.empty]
  split_ifs with h1 h2 h3 h4 h5 h6 h7 h8 <;>
    simp_all [List.mem_cons, joinPath_inj_iff]

/-- A concrete raster used to exercise theorems on explicit inputs. -/
def testImg : Img := Image.new "RGBA" 4 4 ⟨0, 0, 0, 0⟩

/-- A concrete environment in which loading the named system font
fails; the default font measures and covers nothing. -/
def noFontEnv : FontEnv :=
  ⟨fun _ _ => none, ⟨fun _ => (0, 0, 0, 0), fun _ _ _ => false⟩⟩


/-! Claim theorems. -/

/-- C1: for every size S in the configured list
[16, 32, 64, 128, 256, 512, 1024], the raster written to the file
named icon_SxS.png has width S and height S. -/
theorem C1_resized_dimensions (d : String) (b : Img) (fs : Fs) (S : Nat)
    (hS : S ∈ sizes) :
    ∃ f, save_icon_sizes d b fs (joinPath d (iconName S)) = some f ∧
      f.image.width = S ∧ f.image.height = S := by
  fin_cases hS <;>
    refine ⟨⟨b.resize _ _⟩, ?_, rfl, rfl⟩ <;>
    simp only [save_icon_sizes, sizes, List.foldl, writeFile, joinPath_inj_iff] <;>
    (repeat rw [if_neg (by decide)]) <;> simp

/-- Witness for C1 at size 16 on a concrete raster. -/
theorem C1_witness :
    16 ∈ sizes ∧
      ∃ f, save_icon_sizes "b" testImg Fs.empty (joinPath "b" (iconName 16)) = some f ∧
        f.image.width = 16 ∧ f.image.height = 16 :=
  ⟨by decide, C1_resized_dimensions "b" testImg Fs.empty 16 (by decide)⟩

/-- C2: running the script on an empty directory writes exactly the
eight files icon_16x16.png ... icon_1024x1024.png and icon.png, all
into the script's own directory `d`, and (being a total function) the
run completes with no unhandled fault. -/
theorem C2_exactly_eight_files (env : FontEnv) (d p : String) :
    (script_main env d Fs.empty p).isSome ↔ p ∈ outputNames.map (joinPath d) :=
  script_files env d p

/-- C3: the raster written to icon.png has the base canvas dimensions
1024 x 1024. -/
theorem C3_iconpng_dimensions (env : FontEnv) (d : String) (fs : Fs) :
    ∃ f, script_main env d fs (joinPath d "icon.png") = some f ∧
      f.image.width = 1024 ∧ f.image.height = 1024 := by
  refine ⟨⟨create_icon env⟩, ?_, (create_icon_spec env).1, (create_icon_spec env).2.1⟩
  simp [script_main, save_icon_sizes, writeFile]

/-- C4: if loading the named system font fails, the built-in default
font is silently substituted and the run still completes, producing
exactly the eight output files. -/
theorem C4_font_fallback (env : FontEnv) (d p : String)
    (h : env.truetype "arial.ttf" fontSize = none) :
    chooseFont env = env.load_default ∧
      ((script_main env d Fs.empty p).isSome ↔ p ∈ outputNames.map (joinPath d)) := by
  constructor
  · simp [chooseFont, h]
  · exact script_files env d p

/-- Witness for C4: a concrete environment whose truetype loader
always fails. -/
theorem C4_witness :
    noFontEnv.truetype "arial.ttf" fontSize = none ∧
      (chooseFont noFontEnv = noFontEnv.load_default ∧
        ((script_main noFontEnv "b" Fs.empty (joinPath "b" "icon.png")).isSome ↔
          joinPath "b" "icon.png" ∈ outputNames.map (joinPath "b"))) :=
  ⟨rfl, C4_font_fallback noFontEnv "b" (joinPath "b" "icon.png") rfl⟩

/-- C5: the program is deterministic: two runs in an identical
font/library environment compose identical rasters and write identical
file contents. -/
theorem C5_deterministic (env1 env2 : FontEnv) (d : String) (fs : Fs)
    (h : env1 = env2) :
    create_icon env1 = create_icon env2 ∧
      script_main env1 d fs = script_main env2 d fs := by
  subst h
  exact ⟨rfl, rfl⟩

/-- Witness for C5 on a concrete environment. -/
theorem C5_witness :
    create_icon noFontEnv = create_icon noFontEnv ∧
      script_main noFontEnv "b" Fs.empty = script_main noFontEnv "b" Fs.empty :=
  C5_deterministic noFontEnv noFontEnv "b" Fs.empty rfl

/-- C6 counterexample: on the 1024 canvas the drawn radius is
int(1024 * 0.45) = 460, while 45 percent of 1024 is 460.8, and the
margin is 52 pixels while 5 percent of 1024 is 51.2; so the claim's
margin and radius percentages do not hold exactly (the inner-radius
ratio does hold). -/
theorem C6_counterexample :
    ¬ (100 * (center - radius) = 5 * (canvasSize : Int) ∧
       100 * radius = 45 * (canvasSize : Int) ∧
       5 * inner_radius = 4 * radius) := by
  decide

/-- C6 amended: the outer circle is drawn concentric at the canvas
center with radius 460 = int(0.45 * 1024), the floor of 45 percent of
the canvas size, leaving a margin of 52 pixels on each side, and the
inner circle's radius 368 is exactly 80 percent of the outer radius. -/
theorem C6_amended_geometry (env : FontEnv) :
    (create_icon_ops env).take 2 =
      [ DrawOp.ellipse (center - radius) (center - radius)
          (center + radius) (center + radius) ⟨41, 128, 185, 255⟩
      , DrawOp.ellipse (center - inner_radius) (center - inner_radius)
          (center + inner_radius) (center + inner_radius) ⟨52, 152, 219, 255⟩ ] ∧
    radius = 460 ∧ center - radius = 52 ∧
    (canvasSize : Int) - (center + radius) = 52 ∧
    5 * inner_radius = 4 * radius :=
  ⟨rfl, by decide, by decide, by decide, by decide⟩

/-- A font whose measured bounding box for the glyph has a nonzero top
offset, as real fonts do. -/
def offsetFont : Font := ⟨fun _ => (0, 10, 100, 110), fun _ _ _ => false⟩

/-- An environment whose truetype loader returns `offsetFont`. -/
def offsetEnv : FontEnv := ⟨fun _ _ => some offsetFont, offsetFont⟩

/-- C7 counterexample: with a selected font measuring the glyph box as
(0, 10, 100, 110), the drawn bounding box is (462, 472, 562, 572),
whose vertical center 522 differs from the canvas center 512: the
anchor formula ignores the box's origin offset, so the drawn box is
not centered for every bounding box the font may yield. -/
theorem C7_counterexample :
    ¬ ((drawn_bbox (chooseFont offsetEnv)).1 +
         (drawn_bbox (chooseFont offsetEnv)).2.2.1 = 2 * center ∧
       (drawn_bbox (chooseFont offsetEnv)).2.1 +
         (drawn_bbox (chooseFont offsetEnv)).2.2.2 = 2 * center) := by
  decide

/-- C7 amended: the anchor is canvas center minus half the measured
box width and height (floor division), and the drawn bounding box is
centered at the canvas center whenever the measured box has zero left
and top offsets and even width and height. -/
theorem C7_amended_centering (f : Font)
    (hx : (glyph_bbox f).1 = 0) (hy : (glyph_bbox f).2.1 = 0)
    (hw : 2 ∣ (glyph_bbox f).2.2.1) (hh : 2 ∣ (glyph_bbox f).2.2.2) :
    text_x f = center - Int.fdiv (text_width f) 2 ∧
    text_y f = center - Int.fdiv (text_height f) 2 ∧
    (drawn_bbox f).1 + (drawn_bbox f).2.2.1 = 2 * center ∧
    (drawn_bbox f).2.1 + (drawn_bbox f).2.2.2 = 2 * center := by
  obtain ⟨w, hw⟩ := hw
  obtain ⟨v, hv⟩ := hh
  simp only [glyph_bbox, textbbox, zero_add] at hx hy hw hv
  refine ⟨rfl, rfl, ?_, ?_⟩
  · simp only [drawn_bbox, textbbox, text_x, text_width, glyph_bbox, zero_add,
      hx, hw, sub_zero]
    rw [Int.mul_fdiv_cancel_left w (by decide)]
    ring
  · simp only [drawn_bbox, textbbox, text_y, text_height, glyph_bbox, zero_add,
      hy, hv, sub_zero]
    rw [Int.mul_fdiv_cancel_left v (by decide)]
    ring

/-- A font measuring the glyph box with zero offsets and even
dimensions. -/
def evenFont : Font := ⟨fun _ => (0, 0, 100, 200), fun _ _ _ => false⟩

/-- Witness for the amended C7 on a concrete font. -/
theorem C7_witness :
    (glyph_bbox evenFont).1 = 0 ∧ (glyph_bbox evenFont).2.1 = 0 ∧
      2 ∣ (glyph_bbox evenFont).2.2.1 ∧ 2 ∣ (glyph_bbox evenFont).2.2.2 ∧
      (text_x evenFont = center - Int.fdiv (text_width evenFont) 2 ∧
       text_y evenFont = center - Int.fdiv (text_height evenFont) 2 ∧
       (drawn_bbox evenFont).1 + (drawn_bbox evenFont).2.2.1 = 2 * center ∧
       (drawn_bbox evenFont).2.1 + (drawn_bbox evenFont).2.2.2 = 2 * center) :=
  ⟨by decide, by decide, by decide, by decide,
   C7_amended_centering evenFont (by decide) (by decide) (by decide) (by decide)⟩

/-- C8: the export step never mutates the base raster: in the
embedding PIL's resize allocates a fresh raster and `save` only reads,
so every output is a pure function of the same unchanged base value;
in particular icon.png receives the base raster exactly as passed, and
each icon_SxS.png receives a fresh resize of that same base. -/
theorem C8_base_not_mutated (d : String) (b : Img) (fs : Fs) :
    save_icon_sizes d b fs (joinPath d "icon.png") = some ⟨b⟩ ∧
      ∀ S ∈ sizes, save_icon_sizes d b fs (joinPath d (iconName S)) =
        some ⟨b.resize S S⟩ := by
  constructor
  · simp [save_icon_sizes, writeFile]
  · intro S hS
    fin_cases hS <;>
      simp only [save_icon_sizes, sizes, List.foldl, writeFile, joinPath_inj_iff] <;>
      (repeat rw [if_neg (by decide)]) <;> simp

/-- Witness for C8 on a concrete raster at size 16. -/
theorem C8_witness :
    save_icon_sizes "b" testImg Fs.empty (joinPath "b" "icon.png") = some ⟨testImg⟩ ∧
      save_icon_sizes "b" testImg Fs.empty (joinPath "b" (iconName 16)) =
        some ⟨testImg.resize 16 16⟩ :=
  ⟨(C8_base_not_mutated "b" testImg Fs.empty).1,
   (C8_base_not_mutated "b" testImg Fs.empty).2 16 (by decide)⟩

/-- C9: every file the run writes carries the alpha channel: the base
canvas is created in mode RGBA, drawing and resizing preserve the
mode, and save stores the raster with its mode. -/
theorem C9_rgba_outputs (env : FontEnv) (d p : String) (f : PNGFile)
    (h : script_main env d Fs.empty p = some f) :
    f.image.mode = "RGBA" := by
  simp only [script_main, save_icon_sizes, sizes, List.foldl, writeFile, Fs.empty] at h
  split_ifs at h <;>
    simp only [Option.some.injEq] at h <;>
    exact h ▸ (create_icon_spec env).2.2

/-- Witness for C9 at the icon.png output of a concrete run. -/
theorem C9_witness :
    (⟨create_icon noFontEnv⟩ : PNGFile).image.mode = "RGBA" :=
  C9_rgba_outputs noFontEnv "b" (joinPath "b" "icon.png") ⟨create_icon noFontEnv⟩
    (by simp [script_main, save_icon_sizes, writeFile])

/-- C10: the export is idempotent on the filesystem: running it twice
from any starting filesystem leaves exactly the files and contents of
a single run, since every write targets a fixed path with a value
depending only on the base raster. -/
theorem C10_export_idempotent (d : String) (b : Img) (fs : Fs) :
    save_icon_sizes d b (save_icon_sizes d b fs) = save_icon_sizes d b fs := by
  funext p
  simp only [save_icon_sizes, sizes, List.foldl, writeFile]
  split_ifs <;> rfl

end MacIcon
